import Mathlib

/-!
Shallow embedding of `custom_components/homematicip_local/climate.py`
(`HaHomematicClimate`, the climate adapter of the Homematic(IP) Local
integration) together with theorems checking the natural-language
specification against it.

Conventions of the embedding:
* The device-library (hahomematic) enums for HVAC mode, HVAC action and
  preset mode are string-valued enums in Python; their values are modelled
  as `String`s, and a field of type `Option String` models an attribute
  that may be `None`.
* Temperatures are modelled as `ℚ`, humidity as `ℤ`, datetimes as `ℤ`
  (in minutes, so that `timedelta(minutes=10)` is the number `10`).
* A Python dict lookup (`x in D`, `D[x]`, `D.get(x)`) is modelled as a
  function into `Option`.
* An adapter method that calls methods on the device handle is modelled as
  a pure function returning the list of calls it performs on the handle
  (`HmCall`), paired with a `Bool` recording whether a warning was logged
  where a claim cares about it.
-/

namespace HomematicClimate

/-- Enum `HVACMode` of the host platform (a string enum with these
members). -/
inductive HVACMode where
  | off
  | heat
  | cool
  | heat_cool
  | auto
  | dry
  | fan_only
deriving DecidableEq, Repr

/-- Enum `HVACAction` of the host platform (the members used by this
file). -/
inductive HVACAction where
  | cooling
  | heating
  | idle
  | off
deriving DecidableEq, Repr

/-- Constant `STATE_UNKNOWN` from the host platform. -/
def STATE_UNKNOWN : String := "unknown"

/-- Constant `STATE_UNAVAILABLE` from the host platform. -/
def STATE_UNAVAILABLE : String := "unavailable"

/-- List `SUPPORTED_HA_PRESET_MODES = [PRESET_AWAY, PRESET_BOOST,
PRESET_COMFORT, PRESET_ECO, PRESET_NONE]`, the platform preset constants
being these strings. -/
def SUPPORTED_HA_PRESET_MODES : List String :=
  ["away", "boost", "comfort", "eco", "none"]

/-- Marker for custom profiles from the external library (the constant
named PRESET_MODE_PREFIX in hahomematic): device preset values for week
programs start with this string. -/
def PRESET_MODE_MARKER : String := "week_program_"

/-- Dict `HM_TO_HA_HVAC_MODE` from device-library mode values to platform
modes, modelled as a lookup function. -/
def HM_TO_HA_HVAC_MODE (s : String) : Option HVACMode :=
  if s = "auto" then some HVACMode.auto
  else if s = "cool" then some HVACMode.cool
  else if s = "heat" then some HVACMode.heat
  else if s = "off" then some HVACMode.off
  else none

/-- Dict `HA_TO_HM_HVAC_MODE = {v: k for k, v in HM_TO_HA_HVAC_MODE.items()}`:
the inversion of `HM_TO_HA_HVAC_MODE` (which is injective, so the dict
comprehension is an exact inverse), as a lookup function. -/
def HA_TO_HM_HVAC_MODE (m : HVACMode) : Option String :=
  match m with
  | HVACMode.auto => some "auto"
  | HVACMode.cool => some "cool"
  | HVACMode.heat => some "heat"
  | HVACMode.off => some "off"
  | _ => none

/-- Dict `HM_TO_HA_ACTION` from device-library action values to platform
actions, modelled as a lookup function. -/
def HM_TO_HA_ACTION (s : String) : Option HVACAction :=
  if s = "cool" then some HVACAction.cooling
  else if s = "heat" then some HVACAction.heating
  else if s = "idle" then some HVACAction.idle
  else if s = "off" then some HVACAction.off
  else none

/-- Python `str(x)` on an optional string value: `str(None) = "None"`. -/
def pyStr (o : Option String) : String :=
  match o with
  | none => "None"
  | some s => s

/-- Python `s.startswith(pre)`, stated on the character sequences of the
two strings (UTF-8 byte positions play no role at this level). -/
def pyStartsWith (s pre : String) : Bool :=
  pre.data.isPrefixOf s.data

/-- Python `x in L` where `x` may be `None` and `L` is a list of strings:
`None` is in no list of strings. -/
def pyMem (o : Option String) (l : List String) : Bool :=
  match o with
  | none => false
  | some s => l.contains s

/-- Device handle (`BaseClimateEntity` of the external library): the
fields of its contract that `climate.py` consumes. -/
structure HmEntity where
  is_valid : Bool
  target_temperature : Option ℚ
  current_temperature : Option ℚ
  current_humidity : Option ℤ
  hvac_action : Option String
  hvac_mode : String
  hvac_modes : List String
  min_temp : ℚ
  max_temp : ℚ
  preset_mode : Option String
  preset_modes : List String
  supports_preset : Bool
  target_temperature_step : ℚ
deriving DecidableEq, Repr

/-- Restored snapshot (`self._restored_state`): the state string plus the
attribute-dict entries that `climate.py` reads (each
`attributes.get(ATTR_...)` is modelled as the corresponding optional
field). -/
structure RestoredState where
  state : String
  attr_temperature : Option ℚ
  attr_current_temperature : Option ℚ
  attr_current_humidity : Option ℤ
  attr_preset_mode : Option String
deriving DecidableEq, Repr

/-- Adapter instance `HaHomematicClimate`: the handle reference
`_hm_entity`, the restore snapshot `_restored_state` (possibly absent), and
`_attr_target_temperature_step`, which `__init__` copies from the
handle. -/
structure HaHomematicClimate where
  hm_entity : HmEntity
  restored_state : Option RestoredState
  attr_target_temperature_step : ℚ
deriving DecidableEq, Repr

/-- Constructor (`HaHomematicClimate.__init__`): stores the handle and
copies `hm_entity.target_temperature_step` into
`_attr_target_temperature_step`. The restore snapshot is whatever the host
platform restored for this entity. -/
def init (hm : HmEntity) (restored : Option RestoredState) : HaHomematicClimate :=
  { hm_entity := hm
    restored_state := restored
    attr_target_temperature_step := hm.target_temperature_step }

/-- Models the external library mutating the state of the device handle
that the adapter holds a reference to (the adapter itself never writes to
the handle). -/
def updateHm (e : HaHomematicClimate) (hm : HmEntity) : HaHomematicClimate :=
  { e with hm_entity := hm }

/-- Modelled from the spec: `is_restored` of
`HaHomematicGenericRestoreEntity` (defined in `generic_entity.py`, which is
not among the sources at hand) — the restore fallback applies if the
restore state of the adapter is populated and not in an
unknown/unavailable state. -/
def is_restored (e : HaHomematicClimate) : Bool :=
  match e.restored_state with
  | none => false
  | some r => r.state ≠ STATE_UNKNOWN && r.state ≠ STATE_UNAVAILABLE

/-- Property `target_temperature`. -/
def target_temperature (e : HaHomematicClimate) : Option ℚ :=
  if e.hm_entity.is_valid then e.hm_entity.target_temperature
  else if is_restored e then
    match e.restored_state with
    | some r => r.attr_temperature
    | none => none
  else none

/-- Property `current_temperature`. -/
def current_temperature (e : HaHomematicClimate) : Option ℚ :=
  if e.hm_entity.is_valid then e.hm_entity.current_temperature
  else if is_restored e then
    match e.restored_state with
    | some r => r.attr_current_temperature
    | none => none
  else none

/-- Property `current_humidity`. -/
def current_humidity (e : HaHomematicClimate) : Option ℤ :=
  if e.hm_entity.is_valid then e.hm_entity.current_humidity
  else if is_restored e then
    match e.restored_state with
    | some r => r.attr_current_humidity
    | none => none
  else none

/-- Property `hvac_action`: the Python condition is
`self._hm_entity.hvac_action and self._hm_entity.hvac_action in HM_TO_HA_ACTION`
(truthiness: `None` and the empty string are falsy). -/
def hvac_action (e : HaHomematicClimate) : Option HVACAction :=
  match e.hm_entity.hvac_action with
  | none => none
  | some a => if a ≠ "" ∧ (HM_TO_HA_ACTION a).isSome then HM_TO_HA_ACTION a else none

/-- Models `HVACMode(value=s)`: constructing the platform enum from a
string; `none` models the ValueError raised on a non-member string. -/
def HVACMode.ofString (s : String) : Option HVACMode :=
  if s = "off" then some HVACMode.off
  else if s = "heat" then some HVACMode.heat
  else if s = "cool" then some HVACMode.cool
  else if s = "heat_cool" then some HVACMode.heat_cool
  else if s = "auto" then some HVACMode.auto
  else if s = "dry" then some HVACMode.dry
  else if s = "fan_only" then some HVACMode.fan_only
  else none

/-- Property `hvac_mode`; `Except.error ()` models the ValueError that
`HVACMode(value=restored_state)` raises on a non-member restored string. -/
def hvac_mode (e : HaHomematicClimate) : Except Unit (Option HVACMode) :=
  if e.hm_entity.is_valid then
    match HM_TO_HA_HVAC_MODE e.hm_entity.hvac_mode with
    | some m => Except.ok (some m)
    | none => Except.ok (some HVACMode.off)
  else if is_restored e &&
      (match e.restored_state with
       | some r => !([STATE_UNKNOWN, STATE_UNAVAILABLE].contains r.state)
       | none => false) then
    match e.restored_state with
    | some r =>
      match HVACMode.ofString r.state with
      | some m => Except.ok (some m)
      | none => Except.error ()
    | none => Except.ok none
  else Except.ok none

/-- Property `hvac_modes`: the modes of the handle that have a mapping,
mapped. -/
def hvac_modes (e : HaHomematicClimate) : List HVACMode :=
  e.hm_entity.hvac_modes.filterMap HM_TO_HA_HVAC_MODE

/-- Property `min_temp`. -/
def min_temp (e : HaHomematicClimate) : ℚ :=
  e.hm_entity.min_temp

/-- Property `max_temp`. -/
def max_temp (e : HaHomematicClimate) : ℚ :=
  e.hm_entity.max_temp

/-- Property `target_temperature_step`: the `ClimateEntity` base class of
the host platform serves `_attr_target_temperature_step`, which `__init__`
set. -/
def target_temperature_step (e : HaHomematicClimate) : ℚ :=
  e.attr_target_temperature_step

/-- Property `preset_mode`. The Python condition reads
`is_valid and preset_mode in SUPPORTED_HA_PRESET_MODES or
str(preset_mode).startswith(PRESET_MODE_PREFIX)`, and `and` binds tighter
than `or`. -/
def preset_mode (e : HaHomematicClimate) : Option String :=
  if (e.hm_entity.is_valid && pyMem e.hm_entity.preset_mode SUPPORTED_HA_PRESET_MODES)
      || pyStartsWith (pyStr e.hm_entity.preset_mode) PRESET_MODE_MARKER then
    e.hm_entity.preset_mode
  else if is_restored e then
    match e.restored_state with
    | some r => r.attr_preset_mode
    | none => none
  else none

/-- Property `preset_modes`: two independent `if`s per device-reported
value append the string value of the preset. -/
def preset_modes (e : HaHomematicClimate) : List String :=
  e.hm_entity.preset_modes.foldr
    (fun p acc =>
      (if SUPPORTED_HA_PRESET_MODES.contains p then [p] else []) ++
      (if pyStartsWith p PRESET_MODE_MARKER then [p] else []) ++ acc)
    []

/-- Flag `ClimateEntityFeature.TARGET_TEMPERATURE`. -/
def FEATURE_TARGET_TEMPERATURE : ℕ := 1

/-- Flag `ClimateEntityFeature.PRESET_MODE`. -/
def FEATURE_PRESET_MODE : ℕ := 16

/-- Flag `ClimateEntityFeature.TURN_OFF`. -/
def FEATURE_TURN_OFF : ℕ := 128

/-- Flag `ClimateEntityFeature.TURN_ON`. -/
def FEATURE_TURN_ON : ℕ := 256

/-- Membership in an IntFlag combination. -/
def hasFeature (features flag : ℕ) : Bool :=
  features &&& flag ≠ 0

/-- Property `supported_features`. -/
def supported_features (e : HaHomematicClimate) : ℕ :=
  let features := FEATURE_TARGET_TEMPERATURE ||| FEATURE_TURN_OFF ||| FEATURE_TURN_ON
  if e.hm_entity.supports_preset then features ||| FEATURE_PRESET_MODE else features

/-- Call made on the device handle by an adapter command method. -/
inductive HmCall where
  | set_temperature : ℚ → HmCall
  | set_hvac_mode : String → HmCall
  | set_preset_mode : String → HmCall
  | enable_away_mode_by_calendar : ℤ → ℤ → ℚ → HmCall
  | enable_away_mode_by_duration : ℕ → ℚ → HmCall
  | disable_away_mode : HmCall
deriving DecidableEq, Repr

/-- Constant `ATTR_TEMPERATURE` from the host platform. -/
def ATTR_TEMPERATURE : String := "temperature"

/-- Python `kwargs.get(key)` on kwargs modelled as an association list
whose values may themselves be `None`: absent keys and keys mapped to
`None` both give `None`. -/
def pyGet (kwargs : List (String × Option ℚ)) (key : String) : Option ℚ :=
  match kwargs.lookup key with
  | none => none
  | some v => v

/-- Method `async_set_temperature(**kwargs)`: reads
`kwargs.get(ATTR_TEMPERATURE)` and is a no-op when it is `None`. Returns
the calls made on the handle. -/
def async_set_temperature (kwargs : List (String × Option ℚ)) : List HmCall :=
  match pyGet kwargs ATTR_TEMPERATURE with
  | none => []
  | some t => [HmCall.set_temperature t]

/-- Method `async_set_hvac_mode`: returns (warning logged, calls made on
the handle). -/
def async_set_hvac_mode (m : HVACMode) : Bool × List HmCall :=
  match HA_TO_HM_HVAC_MODE m with
  | none => (true, [])
  | some hm => (false, [HmCall.set_hvac_mode hm])

/-- Method `async_set_preset_mode`: returns (warning logged, calls made on
the handle). -/
def async_set_preset_mode (e : HaHomematicClimate) (p : String) : Bool × List HmCall :=
  if (preset_modes e).contains p then (false, [HmCall.set_preset_mode p])
  else (true, [])

/-- Method `async_enable_away_mode_by_calendar`: the line
`start = start or datetime.now() - timedelta(minutes=10)` picks the
default exactly when `start` is `None`, a datetime being always truthy.
Returns the calls made on the handle. -/
def async_enable_away_mode_by_calendar (now : ℤ) (away_end : ℤ)
    (away_temperature : ℚ) (start : Option ℤ) : List HmCall :=
  let s := match start with
    | some s => s
    | none => now - 10
  [HmCall.enable_away_mode_by_calendar s away_end away_temperature]

/-- Method `async_enable_away_mode_by_duration`. -/
def async_enable_away_mode_by_duration (hours : ℕ) (away_temperature : ℚ) :
    List HmCall :=
  [HmCall.enable_away_mode_by_duration hours away_temperature]

/-- Method `async_disable_away_mode`. -/
def async_disable_away_mode : List HmCall :=
  [HmCall.disable_away_mode]

/-- Sample device handle used by concrete witnesses and counterexamples. -/
def sampleHm : HmEntity :=
  { is_valid := true
    target_temperature := some 21
    current_temperature := some 20
    current_humidity := some 45
    hvac_action := some "heat"
    hvac_mode := "heat"
    hvac_modes := ["auto", "heat", "off"]
    min_temp := 5
    max_temp := 31
    preset_mode := some "none"
    preset_modes := ["away", "eco", "week_program_1", "powersave"]
    supports_preset := true
    target_temperature_step := 1 }

/-- Sample restored snapshot used by concrete witnesses and
counterexamples. -/
def sampleRestored : RestoredState :=
  { state := "heat"
    attr_temperature := some 20
    attr_current_temperature := some 19
    attr_current_humidity := some 50
    attr_preset_mode := some "eco" }

/-- Claim C2: every device-library HVAC mode that has an entry in
`HM_TO_HA_HVAC_MODE` round-trips: mapping it to the platform mode and back
through `HA_TO_HM_HVAC_MODE` yields the original device-library mode. -/
theorem c2_hvac_mode_round_trip (s : String) (m : HVACMode)
    (h : HM_TO_HA_HVAC_MODE s = some m) : HA_TO_HM_HVAC_MODE m = some s := by
  unfold HM_TO_HA_HVAC_MODE at h
  split_ifs at h with h1 h2 h3 h4
  · cases h; subst h1; rfl
  · cases h; subst h2; rfl
  · cases h; subst h3; rfl
  · cases h; subst h4; rfl

/-- Witness for C2 at the device-library mode "heat". -/
theorem c2_witness : HA_TO_HM_HVAC_MODE HVACMode.heat = some "heat" :=
  c2_hvac_mode_round_trip "heat" HVACMode.heat (by decide)

/-- Claim C3: `async_set_hvac_mode` on a platform mode with no entry in
`HA_TO_HM_HVAC_MODE` logs a warning and makes no call on the handle; on a
mapped mode it makes exactly the one call `set_hvac_mode` with the mapped
device-library value. -/
theorem c3_set_hvac_mode_guard (m : HVACMode) :
    (HA_TO_HM_HVAC_MODE m = none → async_set_hvac_mode m = (true, [])) ∧
    (∀ hm, HA_TO_HM_HVAC_MODE m = some hm →
      async_set_hvac_mode m = (false, [HmCall.set_hvac_mode hm])) := by
  constructor
  · intro h
    simp [async_set_hvac_mode, h]
  · intro hm h
    simp [async_set_hvac_mode, h]

/-- Witness for C3: the unmapped mode `dry` is rejected with a warning and
no call; the mapped mode `heat` is forwarded as the one call with value
"heat". -/
theorem c3_witness :
    async_set_hvac_mode HVACMode.dry = (true, []) ∧
    async_set_hvac_mode HVACMode.heat = (false, [HmCall.set_hvac_mode "heat"]) :=
  ⟨(c3_set_hvac_mode_guard HVACMode.dry).1 (by decide),
   (c3_set_hvac_mode_guard HVACMode.heat).2 "heat" (by decide)⟩

/-- Claim C5: on a valid handle whose current HVAC mode has no entry in
`HM_TO_HA_HVAC_MODE`, the `hvac_mode` getter fails closed and returns the
platform mode `off`. -/
theorem c5_hvac_mode_fail_closed (e : HaHomematicClimate)
    (hv : e.hm_entity.is_valid = true)
    (hm : HM_TO_HA_HVAC_MODE e.hm_entity.hvac_mode = none) :
    hvac_mode e = Except.ok (some HVACMode.off) := by
  simp [hvac_mode, hv, hm]

/-- Witness for C5 at a valid handle reporting the unmapped raw mode
"dry". -/
theorem c5_witness :
    hvac_mode (init { sampleHm with hvac_mode := "dry" } none) =
      Except.ok (some HVACMode.off) :=
  c5_hvac_mode_fail_closed (init { sampleHm with hvac_mode := "dry" } none)
    rfl (by decide)

/-- Claim C7: `async_enable_away_mode_by_calendar` without a start time
makes exactly one call `enable_away_mode_by_calendar` with start = now
minus 10 minutes, the given end and the given away temperature; with a
start time it forwards that start unchanged. -/
theorem c7_away_calendar_start_default (now away_end : ℤ) (temp : ℚ) :
    async_enable_away_mode_by_calendar now away_end temp none =
      [HmCall.enable_away_mode_by_calendar (now - 10) away_end temp] ∧
    ∀ s, async_enable_away_mode_by_calendar now away_end temp (some s) =
      [HmCall.enable_away_mode_by_calendar s away_end temp] :=
  ⟨rfl, fun _ => rfl⟩

/-- Claim C8: `async_set_temperature` with no temperature value among its
arguments makes no call on the handle; with a temperature value it makes
exactly the one call `set_temperature` with that value. -/
theorem c8_set_temperature_guard (kwargs : List (String × Option ℚ)) :
    (pyGet kwargs ATTR_TEMPERATURE = none →
      async_set_temperature kwargs = []) ∧
    (∀ t, pyGet kwargs ATTR_TEMPERATURE = some t →
      async_set_temperature kwargs = [HmCall.set_temperature t]) := by
  constructor
  · intro h
    simp [async_set_temperature, h]
  · intro t h
    simp [async_set_temperature, h]

/-- Witness for C8: empty kwargs lead to no call; kwargs carrying
temperature 21 lead to the one call with 21. -/
theorem c8_witness :
    async_set_temperature [] = [] ∧
    async_set_temperature [(ATTR_TEMPERATURE, some 21)] =
      [HmCall.set_temperature 21] :=
  ⟨(c8_set_temperature_guard []).1 rfl,
   (c8_set_temperature_guard [(ATTR_TEMPERATURE, some 21)]).2 21 (by decide)⟩

/-- Claim C10: `supported_features` always contains TARGET_TEMPERATURE,
TURN_OFF and TURN_ON, and contains PRESET_MODE exactly when the handle
reports `supports_preset`. -/
theorem c10_supported_features_invariant (e : HaHomematicClimate) :
    hasFeature (supported_features e) FEATURE_TARGET_TEMPERATURE = true ∧
    hasFeature (supported_features e) FEATURE_TURN_OFF = true ∧
    hasFeature (supported_features e) FEATURE_TURN_ON = true ∧
    (hasFeature (supported_features e) FEATURE_PRESET_MODE = true ↔
      e.hm_entity.supports_preset = true) := by
  cases h : e.hm_entity.supports_preset <;>
    simp only [supported_features, h, if_true, if_false, Bool.true_eq_false,
      Bool.false_eq_true, iff_true, iff_false] <;>
    refine ⟨by decide, by decide, by decide, ?_⟩
  · decide
  · decide

/-- Claim C6: the `hvac_action` getter never consults the restored
snapshot and ignores handle validity: it depends only on the live action of
the handle, returns the mapped platform action when that action is set and
has an entry in `HM_TO_HA_ACTION`, and returns `none` in every other case,
including an unmapped action. -/
theorem c6_hvac_action_live (e : HaHomematicClimate) :
    (∀ r s, hvac_action
        { e with restored_state := r, attr_target_temperature_step := s } =
      hvac_action e) ∧
    (∀ b, hvac_action { e with hm_entity := { e.hm_entity with is_valid := b } } =
      hvac_action e) ∧
    (∀ a m, e.hm_entity.hvac_action = some a → HM_TO_HA_ACTION a = some m →
      hvac_action e = some m) ∧
    ((∀ a, e.hm_entity.hvac_action = some a → HM_TO_HA_ACTION a = none) →
      hvac_action e = none) := by
  refine ⟨fun r s => rfl, fun b => rfl, ?_, ?_⟩
  · intro a m h1 h2
    have ha : a ≠ "" := by
      intro he
      subst he
      rw [show HM_TO_HA_ACTION "" = none from by decide] at h2
      exact Option.noConfusion h2
    simp [hvac_action, h1, h2, ha]
  · intro h
    cases hc : e.hm_entity.hvac_action with
    | none => simp [hvac_action, hc]
    | some a =>
      have hn := h a hc
      simp [hvac_action, hc, hn]

/-- Witness for C6: a handle reporting the live action "idle" yields the
platform action `idle` even though a restored snapshot is present. -/
theorem c6_witness :
    hvac_action (init { sampleHm with hvac_action := some "idle" }
        (some sampleRestored)) = some HVACAction.idle :=
  (c6_hvac_action_live
      (init { sampleHm with hvac_action := some "idle" } (some sampleRestored))).2.2.1
    "idle" HVACAction.idle rfl (by decide)

/-- Membership in the filtered list built by `preset_modes`: an element is
in the filter result exactly when the device reports it and it is either
in the allow-list or starts with the custom-profile marker. -/
theorem mem_preset_filter (l : List String) (p : String) :
    p ∈ l.foldr
      (fun q acc =>
        (if SUPPORTED_HA_PRESET_MODES.contains q then [q] else []) ++
        (if pyStartsWith q PRESET_MODE_MARKER then [q] else []) ++ acc)
      [] ↔
    p ∈ l ∧ (p ∈ SUPPORTED_HA_PRESET_MODES ∨
      pyStartsWith p PRESET_MODE_MARKER = true) := by
  induction l with
  | nil => simp
  | cons q t ih =>
    simp only [List.foldr_cons, List.mem_append, ih, List.mem_cons, List.contains,
      List.elem_eq_mem, decide_eq_true_eq]
    by_cases h1 : q ∈ SUPPORTED_HA_PRESET_MODES <;>
      by_cases h2 : pyStartsWith q PRESET_MODE_MARKER = true <;>
        simp [h1, h2] <;> aesop

/-- Claim C4: the exposed preset list contains exactly the device-reported
presets that are in the allow-list or start with the custom-profile
marker; `async_set_preset_mode` on a preset not in that list logs a
warning and makes no call, and on a preset in the list makes exactly the
one call `set_preset_mode` with it. -/
theorem c4_preset_filter_and_guard (e : HaHomematicClimate) :
    (∀ p, p ∈ preset_modes e ↔
      p ∈ e.hm_entity.preset_modes ∧ (p ∈ SUPPORTED_HA_PRESET_MODES ∨
        pyStartsWith p PRESET_MODE_MARKER = true)) ∧
    (∀ p, p ∉ preset_modes e → async_set_preset_mode e p = (true, [])) ∧
    (∀ p, p ∈ preset_modes e →
      async_set_preset_mode e p = (false, [HmCall.set_preset_mode p])) := by
  refine ⟨fun p => mem_preset_filter e.hm_entity.preset_modes p, ?_, ?_⟩
  · intro p hp
    have hc : (preset_modes e).contains p = false := by
      simp only [List.contains, List.elem_eq_mem, decide_eq_false_iff_not]
      exact hp
    simp only [async_set_preset_mode, hc, Bool.false_eq_true, if_false]
  · intro p hp
    have hc : (preset_modes e).contains p = true := by
      simp only [List.contains, List.elem_eq_mem, decide_eq_true_eq]
      exact hp
    simp only [async_set_preset_mode, hc, if_true]

/-- Witness for C4: on the sample handle (reporting "away", "eco",
"week_program_1", "powersave"), the hidden preset "powersave" is rejected
without a call and the surfaced preset "week_program_1" is forwarded. -/
theorem c4_witness :
    async_set_preset_mode (init sampleHm none) "powersave" = (true, []) ∧
    async_set_preset_mode (init sampleHm none) "week_program_1" =
      (false, [HmCall.set_preset_mode "week_program_1"]) :=
  ⟨(c4_preset_filter_and_guard (init sampleHm none)).2.1 "powersave" (by decide),
   (c4_preset_filter_and_guard (init sampleHm none)).2.2 "week_program_1" (by decide)⟩

/-- Helper for C9: any sequence of handle mutations leaves the cached
`_attr_target_temperature_step` of the adapter unchanged. -/
theorem foldl_updateHm_attr_step (l : List HmEntity) (e : HaHomematicClimate) :
    (l.foldl updateHm e).attr_target_temperature_step =
      e.attr_target_temperature_step := by
  induction l generalizing e with
  | nil => rfl
  | cons hm t ih => simpa using ih (updateHm e hm)

/-- Claim C9 (counterexample): after the handle changes its step from the
construction-time 1 to 2, the adapter still reports 1 — the step property
is cached at construction, not read live. -/
theorem c9_counterexample :
    target_temperature_step
        (updateHm (init sampleHm none)
          { sampleHm with target_temperature_step := 2 }) ≠
      (updateHm (init sampleHm none)
        { sampleHm with target_temperature_step := 2 }).hm_entity.target_temperature_step := by
  decide

/-- Claim C9 (amended): after any sequence of handle mutations, `min_temp`
and `max_temp` return the current values of the handle (read live, no
restore fallback and no cache), while `target_temperature_step` returns the
value the handle had when the adapter was constructed. -/
theorem c9_min_max_live_step_cached (hm hm' : HmEntity)
    (restored : Option RestoredState) (updates : List HmEntity) :
    min_temp (updateHm (updates.foldl updateHm (init hm restored)) hm') =
      hm'.min_temp ∧
    max_temp (updateHm (updates.foldl updateHm (init hm restored)) hm') =
      hm'.max_temp ∧
    target_temperature_step
        (updateHm (updates.foldl updateHm (init hm restored)) hm') =
      hm.target_temperature_step :=
  ⟨rfl, rfl, foldl_updateHm_attr_step updates (init hm restored)⟩

/-- Claim C1 (counterexample): with an invalid handle, a populated
snapshot in a known state, and a live preset value starting with the
custom-profile marker, the `preset_mode` getter returns the live value
instead of the snapshot attribute — the fallback policy is not uniform
across the four getters. -/
theorem c1_counterexample :
    (init { sampleHm with is_valid := false, preset_mode := some "week_program_1" }
        (some sampleRestored)).hm_entity.is_valid = false ∧
    (init { sampleHm with is_valid := false, preset_mode := some "week_program_1" }
        (some sampleRestored)).restored_state = some sampleRestored ∧
    sampleRestored.state ≠ STATE_UNKNOWN ∧
    sampleRestored.state ≠ STATE_UNAVAILABLE ∧
    preset_mode
        (init { sampleHm with is_valid := false, preset_mode := some "week_program_1" }
          (some sampleRestored)) ≠ sampleRestored.attr_preset_mode := by
  refine ⟨rfl, rfl, by decide, by decide, ?_⟩
  decide

/-- Claim C1 (amended): for an adapter whose handle is invalid and whose
live preset value does not start with the custom-profile marker, the
getters for target temperature, current temperature, current humidity and
preset mode fall back uniformly: with a populated snapshot in a known
state each returns the corresponding snapshot attribute, and with no
snapshot each returns `none`. (The operator precedence of the preset
condition lets a live value starting with the marker bypass both the
validity check and the fallback, which forces the exception.) -/
theorem c1_restore_fallback (e : HaHomematicClimate)
    (hv : e.hm_entity.is_valid = false)
    (hp : pyStartsWith (pyStr e.hm_entity.preset_mode) PRESET_MODE_MARKER = false) :
    (∀ r, e.restored_state = some r → r.state ≠ STATE_UNKNOWN →
      r.state ≠ STATE_UNAVAILABLE →
      target_temperature e = r.attr_temperature ∧
      current_temperature e = r.attr_current_temperature ∧
      current_humidity e = r.attr_current_humidity ∧
      preset_mode e = r.attr_preset_mode) ∧
    (e.restored_state = none →
      target_temperature e = none ∧
      current_temperature e = none ∧
      current_humidity e = none ∧
      preset_mode e = none) := by
  constructor
  · intro r hr h1 h2
    have hres : is_restored e = true := by
      simp [is_restored, hr, h1, h2]
    refine ⟨?_, ?_, ?_, ?_⟩ <;>
      simp [target_temperature, current_temperature, current_humidity,
        preset_mode, hv, hres, hr, hp]
  · intro hr
    have hres : is_restored e = false := by
      simp [is_restored, hr]
    refine ⟨?_, ?_, ?_, ?_⟩ <;>
      simp [target_temperature, current_temperature, current_humidity,
        preset_mode, hv, hres, hr, hp]

/-- Witness for the amended C1: an invalid handle with live preset "none"
and the sample snapshot in state "heat" yields the snapshot attributes on
all four getters. -/
theorem c1_witness :
    target_temperature (init { sampleHm with is_valid := false }
        (some sampleRestored)) = some 20 ∧
    current_temperature (init { sampleHm with is_valid := false }
        (some sampleRestored)) = some 19 ∧
    current_humidity (init { sampleHm with is_valid := false }
        (some sampleRestored)) = some 50 ∧
    preset_mode (init { sampleHm with is_valid := false }
        (some sampleRestored)) = some "eco" := by
  have h := (c1_restore_fallback
      (init { sampleHm with is_valid := false } (some sampleRestored))
      rfl (by decide)).1 sampleRestored rfl (by decide) (by decide)
  simpa [sampleRestored] using h

end HomematicClimate
